import Mathlib

/-!
Shallow embedding of `src/App.tsx` (the whole repository is this one file).

Conventions of the embedding:
* TypeScript strings are Lean `String`s.  The `ThemeType` cell can in fact
  hold an arbitrary string, because the initializer casts the stored value
  (`saved as ThemeType`) without validation, so theme-consuming functions
  take `String`.
* The browser's `localStorage`, restricted to the single key `app-theme`
  used by the program, is an `Option String` (`none` = key absent).
* JSX element trees are `Widget` values: a node carries the element kind,
  its `className` string and a sequence of children; `{cond && x}` renders
  `x` or nothing; `{list.map f}` renders the mapped sequence.  Attributes
  other than `className` (src, placeholder, …) and event handlers carry no
  information any verified property depends on and are not modelled.
* Numeric product fields (`price`, `rating.rate`) are display-only in the
  program (interpolated into text, never computed with), so they are
  modelled by their rendered text.
-/

/-- Product shape parsed from the catalog response (`interface Product`). -/
structure Rating where
  rate : String
  count : Nat
deriving Repr, DecidableEq

/-- One catalog item (`interface Product`). -/
structure Product where
  id : Int
  title : String
  price : String
  description : String
  category : String
  image : String
  rating : Rating
deriving Repr, DecidableEq

/-- The `useState` initializer of `ThemeProvider` (App.tsx lines 38-41):
`const saved = localStorage.getItem('app-theme'); return (saved as ThemeType) || 'theme1'`.
JavaScript `||` falls through exactly on the falsy strings: `null` (absent key)
and the empty string. -/
def loadTheme (store : Option String) : String :=
  match store with
  | none => "theme1"
  | some saved => if saved = "" then "theme1" else saved

/-- The style bundle returned by `getThemeStyles` (`interface ThemeStyles`).
`sidebar` and `content` are the two optional fields. -/
structure ThemeStyles where
  container : String
  header : String
  headerContent : String
  logo : String
  dropdown : String
  dropdownButton : String
  dropdownMenu : String
  nav : String
  navButton : String
  main : String
  sidebar : Option String
  content : Option String
  title : String
  paragraph : String
  button : String
  card : String
  productGrid : String
  productCard : String
deriving Repr, DecidableEq

/-- `const baseTransition = 'transition-all duration-500 ease-in-out'`. -/
def baseTransition : String := "transition-all duration-500 ease-in-out"

/-- The `case 'theme1'` bundle of `getThemeStyles`. -/
def theme1Styles : ThemeStyles where
  container := "min-h-screen bg-gray-50 text-gray-900 font-sans " ++ baseTransition
  header := "fixed top-0 w-full bg-white shadow-sm border-b border-gray-200 z-50 " ++ baseTransition
  headerContent := "max-w-6xl mx-auto px-4 py-4 flex justify-between items-center"
  logo := "text-xl font-medium text-gray-900"
  dropdown := "relative"
  dropdownButton := "flex items-center space-x-2 px-4 py-2 bg-gray-100 rounded-lg hover:bg-gray-200 transition-colors"
  dropdownMenu := "absolute right-0 mt-2 w-48 bg-white rounded-lg shadow-lg border border-gray-200 py-2"
  nav := "flex space-x-6"
  navButton := "flex items-center space-x-2 px-3 py-2 text-gray-600 hover:text-gray-900 transition-colors"
  main := "pt-20 max-w-4xl mx-auto px-4 py-8"
  sidebar := none
  content := none
  title := "text-3xl font-light mb-6 text-gray-800"
  paragraph := "text-base leading-relaxed mb-6 text-gray-600"
  button := "px-6 py-3 bg-blue-600 text-white rounded-lg hover:bg-blue-700 transition-colors font-medium"
  card := "bg-white p-6 rounded-lg shadow-sm border border-gray-200 mb-4"
  productGrid := "grid grid-cols-1 md:grid-cols-2 lg:grid-cols-3 gap-6 mt-8"
  productCard := "bg-white p-4 rounded-lg shadow-sm border border-gray-200 hover:shadow-md transition-shadow"

/-- The `case 'theme2'` bundle of `getThemeStyles` (the dark sidebar theme). -/
def theme2Styles : ThemeStyles where
  container := "min-h-screen bg-gray-900 text-gray-100 font-serif " ++ baseTransition
  header := "fixed top-0 w-full bg-gray-800 shadow-lg border-b border-gray-700 z-50 " ++ baseTransition
  headerContent := "max-w-6xl mx-auto px-4 py-4 flex justify-between items-center"
  logo := "text-2xl font-bold text-yellow-400"
  dropdown := "relative"
  dropdownButton := "flex items-center space-x-2 px-4 py-2 bg-gray-700 rounded-lg hover:bg-gray-600 transition-colors text-gray-100"
  dropdownMenu := "absolute right-0 mt-2 w-48 bg-gray-800 rounded-lg shadow-xl border border-gray-600 py-2"
  nav := "flex space-x-6"
  navButton := "flex items-center space-x-2 px-3 py-2 text-gray-300 hover:text-yellow-400 transition-colors"
  main := "pt-20 flex"
  sidebar := some "w-64 bg-gray-800 min-h-screen p-6 fixed left-0 top-20"
  content := some "ml-64 flex-1 p-8"
  title := "text-4xl font-bold mb-8 text-yellow-400"
  paragraph := "text-lg leading-relaxed mb-8 text-gray-300 font-light"
  button := "px-8 py-4 bg-yellow-600 text-gray-900 rounded-lg hover:bg-yellow-500 transition-colors font-bold text-lg"
  card := "bg-gray-800 p-8 rounded-xl shadow-xl border border-gray-700 mb-6"
  productGrid := "grid grid-cols-1 lg:grid-cols-2 gap-8 mt-8"
  productCard := "bg-gray-800 p-6 rounded-xl shadow-xl border border-gray-700 hover:border-yellow-600 transition-colors"

/-- The `case 'theme3'` bundle of `getThemeStyles`. -/
def theme3Styles : ThemeStyles where
  container := "min-h-screen bg-gradient-to-br from-pink-100 via-purple-50 to-indigo-100 text-gray-800 " ++ baseTransition
  header := "fixed top-0 w-full bg-white/80 backdrop-blur-md shadow-lg border-b border-pink-200 z-50 " ++ baseTransition
  headerContent := "max-w-6xl mx-auto px-4 py-4 flex justify-between items-center"
  logo := "text-2xl font-bold bg-gradient-to-r from-pink-500 to-purple-600 bg-clip-text text-transparent"
  dropdown := "relative"
  dropdownButton := "flex items-center space-x-2 px-4 py-2 bg-gradient-to-r from-pink-500 to-purple-600 text-white rounded-full hover:from-pink-600 hover:to-purple-700 transition-all shadow-lg"
  dropdownMenu := "absolute right-0 mt-2 w-48 bg-white/90 backdrop-blur-md rounded-2xl shadow-xl border border-pink-200 py-2"
  nav := "flex space-x-4"
  navButton := "flex items-center space-x-2 px-4 py-2 text-purple-600 hover:bg-purple-100 rounded-full transition-colors"
  main := "pt-20 max-w-6xl mx-auto px-4 py-8"
  sidebar := none
  content := none
  title := "text-5xl font-bold mb-8 bg-gradient-to-r from-pink-500 via-purple-500 to-indigo-500 bg-clip-text text-transparent text-center"
  paragraph := "text-lg leading-relaxed mb-8 text-center max-w-2xl mx-auto text-gray-700"
  button := "px-8 py-4 bg-gradient-to-r from-pink-500 to-purple-600 text-white rounded-full hover:from-pink-600 hover:to-purple-700 transition-all shadow-lg font-bold text-lg transform hover:scale-105"
  card := "bg-white/60 backdrop-blur-md p-8 rounded-3xl shadow-xl border border-white/50 mb-6 hover:bg-white/70 transition-all"
  productGrid := "grid grid-cols-1 md:grid-cols-2 xl:grid-cols-4 gap-6 mt-12"
  productCard := "bg-white/70 backdrop-blur-md p-6 rounded-3xl shadow-xl border border-white/50 hover:shadow-2xl hover:scale-105 transition-all duration-300"

/-- `getThemeStyles` (App.tsx lines 106-175): a switch on the theme string
whose `default` case returns `getThemeStyles('theme1')`, i.e. the theme1
bundle. -/
def getThemeStyles (theme : String) : ThemeStyles :=
  if theme = "theme1" then theme1Styles
  else if theme = "theme2" then theme2Styles
  else if theme = "theme3" then theme3Styles
  else theme1Styles

/-- The two context-held state cells (`ThemeProvider`'s theme, which the
`useEffect` re-persists to `localStorage` on every change, and
`RouterProvider`'s `currentPage`), together with the persistent store. -/
structure AppState where
  theme : String
  currentPage : String
  store : Option String
deriving Repr, DecidableEq

/-- `setTheme` followed by the persistence effect
`useEffect(() => localStorage.setItem('app-theme', theme), [theme])`
(App.tsx lines 43-45). -/
def selectTheme (newTheme : String) (s : AppState) : AppState :=
  { s with theme := newTheme, store := some newTheme }

/-- `navigate` in `RouterProvider` (App.tsx lines 73-75):
`const navigate = (page: string) => setCurrentPage(page)` — unconditional. -/
def navigate (page : String) (s : AppState) : AppState :=
  { s with currentPage := page }

/-- Root composition startup: theme from the store via the initializer,
`useState('home')` for the page. -/
def initialAppState (store : Option String) : AppState :=
  { theme := loadTheme store, currentPage := "home", store := store }

/-- Result of the single `fetch` in `useProducts` once it settles. -/
inductive FetchResult where
  | success (data : List Product)
  | failure (msg : String)
deriving Repr, DecidableEq

/-- The three `useState` cells of `useProducts` (App.tsx lines 250-252). -/
structure ProductsState where
  products : List Product
  loading : Bool
  error : Option String
deriving Repr, DecidableEq

/-- `useState<Product[]>([])`, `useState(true)`, `useState<string | null>(null)`. -/
def initialProductsState : ProductsState :=
  { products := [], loading := true, error := none }

/-- The effect body of `useProducts` (App.tsx lines 254-269): on success
`setProducts(data)`, on any throw (non-ok status or parse failure)
`setError(message)`, and `setLoading(false)` in `finally`. -/
def settleFetch (r : FetchResult) (s : ProductsState) : ProductsState :=
  match r with
  | .success data => { s with products := data, loading := false }
  | .failure msg => { s with error := some msg, loading := false }

/-- A rendered element tree.  `node kind className child` is one JSX
element with its children given as a `seq`/`nil` sequence; `text` is
interpolated text. -/
inductive Widget where
  | nil : Widget
  | text (s : String) : Widget
  | node (kind : String) (className : String) (child : Widget) : Widget
  | seq (a b : Widget) : Widget
deriving Repr, DecidableEq

/-- Children written as a list, sequenced. -/
def Widget.ofList (l : List Widget) : Widget :=
  l.foldr Widget.seq Widget.nil

/-- An element with a list of children. -/
def Widget.nodeL (kind className : String) (children : List Widget) : Widget :=
  Widget.node kind className (Widget.ofList children)

/-- `ProductCard` (App.tsx lines 275-297). -/
def renderProductCard (theme : String) (product : Product) : Widget :=
  let styles := getThemeStyles theme
  Widget.nodeL "div" styles.productCard [
    Widget.node "img" "w-full h-48 object-contain mb-4 rounded-lg" Widget.nil,
    Widget.nodeL "h3" "font-bold text-lg mb-2 line-clamp-2" [Widget.text product.title],
    Widget.nodeL "p" "text-sm opacity-75 mb-3 line-clamp-2" [Widget.text product.description],
    Widget.nodeL "div" "flex justify-between items-center" [
      Widget.nodeL "span" "text-xl font-bold" [Widget.text ("$" ++ product.price)],
      Widget.nodeL "div" "flex items-center space-x-1" [
        Widget.node "icon" "fill-current text-yellow-500" Widget.nil,
        Widget.nodeL "span" "text-sm" [Widget.text product.rating.rate]]]]

/-- The `{loading && …}` fragment of the home page. -/
def renderLoading (loading : Bool) (className : String) : Widget :=
  if loading then Widget.nodeL "p" className [Widget.text "Loading products..."] else Widget.nil

/-- The `{error && …}` fragment of the home page. -/
def renderError (error : Option String) (className : String) : Widget :=
  match error with
  | some e => Widget.nodeL "p" className [Widget.text ("Error: " ++ e)]
  | none => Widget.nil

/-- A theme2 sidebar (the fixed heading plus a fixed list of button labels),
as rendered identically on all three pages. -/
def renderSidebar (sidebarClass heading : String) (labels : List String) : Widget :=
  Widget.nodeL "div" sidebarClass [
    Widget.nodeL "h3" "text-xl font-bold mb-4 text-yellow-400" [Widget.text heading],
    Widget.nodeL "ul" "space-y-2" (labels.map fun label =>
      Widget.nodeL "li" "" [
        Widget.nodeL "button" "w-full text-left px-3 py-2 text-gray-300 hover:text-yellow-400 hover:bg-gray-700 rounded transition-colors" [Widget.text label]])]

/-- `HomePage` (App.tsx lines 300-368). -/
def renderHomePage (theme : String) (ps : ProductsState) : Widget :=
  let styles := getThemeStyles theme
  if theme = "theme2" then
    Widget.nodeL "div" styles.main [
      renderSidebar (styles.sidebar.getD "") "Categories"
        ["Electronics", "Clothing", "Books", "Home & Garden"],
      Widget.nodeL "div" (styles.content.getD "") [
        Widget.nodeL "h1" styles.title [Widget.text "Welcome to ThemeStore"],
        Widget.nodeL "p" styles.paragraph [Widget.text "Experience the power of dynamic theming with our multi-theme switcher application. This dark theme features a bold sidebar layout with serif typography for a sophisticated reading experience."],
        Widget.nodeL "button" styles.button [Widget.text "Explore Products"],
        Widget.nodeL "div" styles.card [
          Widget.nodeL "h2" "text-2xl font-bold mb-4 text-yellow-400" [Widget.text "Featured Products"],
          renderLoading ps.loading "",
          renderError ps.error "text-red-400",
          Widget.nodeL "div" styles.productGrid (ps.products.map (renderProductCard theme))]]]
  else
    Widget.nodeL "main" styles.main [
      Widget.nodeL "h1" styles.title [Widget.text "Welcome to ThemeStore"],
      Widget.nodeL "p" styles.paragraph [Widget.text "Experience the power of dynamic theming with our multi-theme switcher application. Switch between different themes to see how layout, typography, and colors transform the entire user experience."],
      Widget.nodeL "div" "text-center mb-8" [Widget.nodeL "button" styles.button [Widget.text "Explore Products"]],
      Widget.nodeL "div" styles.card [
        Widget.nodeL "h2" ("text-2xl font-bold mb-6 " ++
            (if theme = "theme3" then "text-center bg-gradient-to-r from-pink-500 to-purple-600 bg-clip-text text-transparent" else ""))
          [Widget.text "Featured Products"],
        renderLoading ps.loading "text-center",
        renderError ps.error "text-red-500 text-center",
        Widget.nodeL "div" styles.productGrid (ps.products.map (renderProductCard theme))]]

/-- The `content` fragment shared by both layout variants of `AboutPage`. -/
def aboutContent (styles : ThemeStyles) : List Widget := [
  Widget.nodeL "h1" styles.title [Widget.text "About ThemeStore"],
  Widget.nodeL "p" styles.paragraph [Widget.text "ThemeStore is a demonstration of advanced React theming capabilities. Built with TypeScript, Context API, and modern React patterns, this application showcases how different themes can completely transform user experience."],
  Widget.nodeL "div" styles.card [
    Widget.nodeL "h2" "text-2xl font-bold mb-4" [Widget.text "Technologies Used"],
    Widget.nodeL "ul" "space-y-2" [
      Widget.nodeL "li" "" [Widget.text "• React 18 with TypeScript"],
      Widget.nodeL "li" "" [Widget.text "• Context API for state management"],
      Widget.nodeL "li" "" [Widget.text "• Tailwind CSS for styling"],
      Widget.nodeL "li" "" [Widget.text "• FakeStore API integration"],
      Widget.nodeL "li" "" [Widget.text "• LocalStorage for persistence"],
      Widget.nodeL "li" "" [Widget.text "• Responsive design patterns"]]],
  Widget.nodeL "div" styles.card [
    Widget.nodeL "h2" "text-2xl font-bold mb-4" [Widget.text "Theme Features"],
    Widget.nodeL "p" "mb-4" [Widget.text "Each theme offers unique characteristics:"],
    Widget.nodeL "ul" "space-y-2" [
      Widget.nodeL "li" "" [Widget.text "• Theme 1: Clean minimalist design with light colors"],
      Widget.nodeL "li" "" [Widget.text "• Theme 2: Dark mode with sidebar navigation"],
      Widget.nodeL "li" "" [Widget.text "• Theme 3: Vibrant gradients with playful animations"]]]]

/-- `AboutPage` (App.tsx lines 371-429). -/
def renderAboutPage (theme : String) : Widget :=
  let styles := getThemeStyles theme
  if theme = "theme2" then
    Widget.nodeL "div" styles.main [
      renderSidebar (styles.sidebar.getD "") "Navigation"
        ["Company", "Team", "Mission", "Values"],
      Widget.nodeL "div" (styles.content.getD "") (aboutContent styles)]
  else
    Widget.nodeL "main" styles.main (aboutContent styles)

/-- The `content` fragment shared by both layout variants of `ContactPage`. -/
def contactContent (styles : ThemeStyles) : List Widget := [
  Widget.nodeL "h1" styles.title [Widget.text "Contact Us"],
  Widget.nodeL "p" styles.paragraph [Widget.text "Get in touch with our team for any questions, feedback, or collaboration opportunities."],
  Widget.nodeL "div" styles.card [
    Widget.nodeL "h2" "text-2xl font-bold mb-4" [Widget.text "Contact Information"],
    Widget.nodeL "div" "space-y-4" [
      Widget.nodeL "div" "flex items-center space-x-3" [
        Widget.node "icon" "" Widget.nil,
        Widget.nodeL "span" "" [Widget.text "contact@themestore.com"]],
      Widget.nodeL "div" "flex items-center space-x-3" [
        Widget.node "icon" "" Widget.nil,
        Widget.nodeL "span" "" [Widget.text "+1 (555) 123-4567"]]]],
  Widget.nodeL "div" styles.card [
    Widget.nodeL "h2" "text-2xl font-bold mb-4" [Widget.text "Send Message"],
    Widget.nodeL "div" "space-y-4" [
      Widget.node "input" "w-full p-3 rounded-lg border border-gray-300 focus:outline-none focus:ring-2 focus:ring-blue-500" Widget.nil,
      Widget.node "input" "w-full p-3 rounded-lg border border-gray-300 focus:outline-none focus:ring-2 focus:ring-blue-500" Widget.nil,
      Widget.node "textarea" "w-full p-3 rounded-lg border border-gray-300 focus:outline-none focus:ring-2 focus:ring-blue-500 resize-none" Widget.nil,
      Widget.nodeL "button" styles.button [Widget.text "Send Message"]]]]

/-- `ContactPage` (App.tsx lines 432-504). -/
def renderContactPage (theme : String) : Widget :=
  let styles := getThemeStyles theme
  if theme = "theme2" then
    Widget.nodeL "div" styles.main [
      renderSidebar (styles.sidebar.getD "") "Quick Links"
        ["Support", "Sales", "Partnership", "Careers"],
      Widget.nodeL "div" (styles.content.getD "") (contactContent styles)]
  else
    Widget.nodeL "main" styles.main (contactContent styles)

/-- `renderPage` in `AppContent` (App.tsx lines 522-531): a switch on
`currentPage` whose `default` case is `<HomePage />`. -/
def renderPage (theme page : String) (ps : ProductsState) : Widget :=
  if page = "about" then renderAboutPage theme
  else if page = "contact" then renderContactPage theme
  else renderHomePage theme ps

/-- Whether some element in the tree carries exactly this `className`. -/
def hasClass (c : String) : Widget → Bool
  | .nil => false
  | .text _ => false
  | .node _ className child => className == c || hasClass c child
  | .seq a b => hasClass c a || hasClass c b

/-- The subtrees rooted at elements carrying exactly this `className`,
in rendering order (matching roots are not searched further). -/
def collectClass (c : String) : Widget → List Widget
  | .nil => []
  | .text _ => []
  | .node kind className child =>
      if className == c then [Widget.node kind className child]
      else collectClass c child
  | .seq a b => collectClass c a ++ collectClass c b

/-- The structure of a tree: element kinds, nesting and text, with every
`className` erased. -/
inductive Shape where
  | nil : Shape
  | text (s : String) : Shape
  | node (kind : String) (child : Shape) : Shape
  | seq (a b : Shape) : Shape
deriving Repr, DecidableEq

/-- Erase the classNames of a tree, keeping its structure. -/
def Widget.shape : Widget → Shape
  | .nil => .nil
  | .text s => .text s
  | .node kind _ child => .node kind (Widget.shape child)
  | .seq a b => .seq (Widget.shape a) (Widget.shape b)

/-- The sidebar region's className, i.e. the `sidebar` token of the
dark-sidebar bundle. -/
def sidebarToken : String := (getThemeStyles "theme2").sidebar.getD ""

/-- The content-pane region's className, i.e. the `content` token of the
dark-sidebar bundle. -/
def contentToken : String := (getThemeStyles "theme2").content.getD ""

/-- The style tokens the spec requires for every theme: container, header,
navigation, button, card, product grid, product card, title, paragraph,
main. -/
def requiredTokens (b : ThemeStyles) : List String :=
  [b.container, b.header, b.nav, b.navButton, b.button, b.card, b.productGrid,
   b.productCard, b.title, b.paragraph, b.main]

/-- A concrete catalog item, for witnesses. -/
def sampleProduct : Product :=
  { id := 1, title := "Fjallraven Backpack", price := "109.95",
    description := "Your perfect pack for everyday use", category := "bags",
    image := "img1", rating := { rate := "3.9", count := 120 } }

/-- A second concrete catalog item, for witnesses. -/
def sampleProduct2 : Product :=
  { id := 2, title := "Mens Casual T-Shirt", price := "22.3",
    description := "Slim-fitting style", category := "clothing",
    image := "img2", rating := { rate := "4.1", count := 259 } }

lemma hasClass_cards_false (c th : String) (l : List Product)
    (h : ∀ p, hasClass c (renderProductCard th p) = false) :
    hasClass c (Widget.ofList (l.map (renderProductCard th))) = false := by
  induction l with
  | nil => rfl
  | cons p l ih =>
    show (hasClass c (renderProductCard th p)
        || hasClass c (Widget.ofList (l.map (renderProductCard th)))) = false
    rw [h p, ih]
    rfl

lemma collectClass_cards (c th : String) (l : List Product)
    (h : ∀ p, collectClass c (renderProductCard th p) = [renderProductCard th p]) :
    collectClass c (Widget.ofList (l.map (renderProductCard th)))
      = l.map (renderProductCard th) := by
  induction l with
  | nil => rfl
  | cons p l ih =>
    show collectClass c (renderProductCard th p)
        ++ collectClass c (Widget.ofList (l.map (renderProductCard th)))
      = _
    rw [h p, ih]
    rfl

lemma shape_cards (t : String) (l : List Product) :
    (List.foldr Widget.seq Widget.nil (l.map (renderProductCard t))).shape
      = (List.foldr Widget.seq Widget.nil (l.map (renderProductCard "theme1"))).shape := by
  induction l with
  | nil => rfl
  | cons p l ih =>
    show Shape.seq (renderProductCard t p).shape
        (List.foldr Widget.seq Widget.nil (l.map (renderProductCard t))).shape
       = Shape.seq (renderProductCard "theme1" p).shape
        (List.foldr Widget.seq Widget.nil (l.map (renderProductCard "theme1"))).shape
    rw [ih]
    rfl

/-- C1 counterexample: a store holding the unrecognized value "bogus" makes
the theme initializer return "bogus" verbatim, not the default "theme1" the
claim promises, because the initializer only casts the stored string. -/
theorem loadTheme_unrecognized_value_counterexample :
    loadTheme (some "bogus") = "bogus" ∧
    ("bogus" ≠ "theme1" ∧ "bogus" ≠ "theme2" ∧ "bogus" ≠ "theme3") ∧
    loadTheme (some "bogus") ≠ "theme1" := by
  decide

/-- C1 (amended): the theme initializer never fails outward and returns the
default "theme1" exactly when the stored value is absent or the empty
string; every other stored string — recognized or not — is returned
verbatim. -/
theorem loadTheme_default_only_when_absent_or_empty (s : String) (h : s ≠ "") :
    loadTheme (some s) = s ∧ loadTheme none = "theme1" ∧ loadTheme (some "") = "theme1" := by
  refine ⟨?_, rfl, rfl⟩
  simp [loadTheme, h]

/-- Witness for the amended C1 at the concrete stored value "mystery". -/
theorem loadTheme_default_only_when_absent_or_empty_witness :
    "mystery" ≠ "" ∧ loadTheme (some "mystery") = "mystery" :=
  ⟨by decide, (loadTheme_default_only_when_absent_or_empty "mystery" (by decide)).1⟩

/-- C10: every non-empty stored string is returned verbatim by the theme
initializer, even when it is not a recognized identifier, and only an
absent store, an empty string, or the literal "theme1" can produce the
default "theme1". -/
theorem loadTheme_nonempty_verbatim (s : String) (h : s ≠ "") :
    loadTheme (some s) = s ∧
    (∀ v : Option String, loadTheme v = "theme1" →
      v = none ∨ v = some "" ∨ v = some "theme1") := by
  constructor
  · simp [loadTheme, h]
  · intro v hv
    match v with
    | none => exact Or.inl rfl
    | some t =>
      by_cases ht : t = ""
      · exact Or.inr (Or.inl (by rw [ht]))
      · refine Or.inr (Or.inr ?_)
        simp [loadTheme, ht] at hv
        rw [hv]

/-- Witness for C10 at the concrete unrecognized stored value "neon". -/
theorem loadTheme_nonempty_verbatim_witness :
    "neon" ≠ "" ∧ loadTheme (some "neon") = "neon" :=
  ⟨by decide, (loadTheme_nonempty_verbatim "neon" (by decide)).1⟩

/-- C6: `getThemeStyles` is total — any value outside the three recognized
identifiers yields the bundle of the default identifier "theme1" rather
than failing (it is a pure Lean function, so it has no side effects). -/
theorem getThemeStyles_total_defaults (t : String)
    (h1 : t ≠ "theme1") (h2 : t ≠ "theme2") (h3 : t ≠ "theme3") :
    getThemeStyles t = getThemeStyles "theme1" := by
  simp [getThemeStyles, h1, h2, h3]

/-- Witness for C6 at the concrete unrecognized value "neon-glow". -/
theorem getThemeStyles_total_defaults_witness :
    getThemeStyles "neon-glow" = getThemeStyles "theme1" :=
  getThemeStyles_total_defaults "neon-glow" (by decide) (by decide) (by decide)

/-- C7: each of the three bundles carries a non-empty token for every
required region; only the "theme2" (dark-sidebar) bundle defines the
sidebar and content tokens, the other two leave them undefined. -/
theorem getThemeStyles_required_tokens :
    (requiredTokens (getThemeStyles "theme1")).all (fun tok => !(tok == "")) = true ∧
    (requiredTokens (getThemeStyles "theme2")).all (fun tok => !(tok == "")) = true ∧
    (requiredTokens (getThemeStyles "theme3")).all (fun tok => !(tok == "")) = true ∧
    (getThemeStyles "theme2").sidebar.isSome = true ∧
    (getThemeStyles "theme2").content.isSome = true ∧
    (getThemeStyles "theme1").sidebar = none ∧ (getThemeStyles "theme1").content = none ∧
    (getThemeStyles "theme3").sidebar = none ∧ (getThemeStyles "theme3").content = none := by
  decide

/-- C8: round-trip persistence — `selectTheme x` stores `x`, and the theme
initializer then reads `x` back, for each of the three valid identifiers. -/
theorem selectTheme_loadTheme_roundtrip (x : String) (s : AppState)
    (hx : x = "theme1" ∨ x = "theme2" ∨ x = "theme3") :
    (selectTheme x s).store = some x ∧ loadTheme (selectTheme x s).store = x := by
  rcases hx with rfl | rfl | rfl <;> exact ⟨rfl, rfl⟩

/-- Witness for C8 at "theme2" from a concrete starting state. -/
theorem selectTheme_loadTheme_roundtrip_witness :
    loadTheme (selectTheme "theme2" (initialAppState none)).store = "theme2" :=
  (selectTheme_loadTheme_roundtrip "theme2" (initialAppState none)
    (Or.inr (Or.inl rfl))).2

/-- C9: the theme cell and the page cell are independent — selecting a
theme never changes the current page, and navigating never changes the
theme or the persisted store value. -/
theorem theme_and_page_cells_independent (x p : String) (s : AppState) :
    (selectTheme x s).currentPage = s.currentPage ∧
    (navigate p s).theme = s.theme ∧
    (navigate p s).store = s.store :=
  ⟨rfl, rfl, rfl⟩

/-- C5: `navigate` sets the page unconditionally for every string, and the
page dispatch renders home-page content for every unrecognized page
identifier, in particular after navigate("about"); navigate("unknown-page"). -/
theorem navigate_unconditional_with_home_fallback
    (newPage theme : String) (s : AppState) (ps : ProductsState) :
    (navigate newPage s).currentPage = newPage ∧
    (navigate "unknown-page" (navigate "about" s)).currentPage = "unknown-page" ∧
    (∀ q, q ≠ "about" → q ≠ "contact" → renderPage theme q ps = renderHomePage theme ps) ∧
    renderPage theme (navigate "unknown-page" (navigate "about" s)).currentPage ps
      = renderHomePage theme ps := by
  refine ⟨rfl, rfl, ?_, ?_⟩
  · intro q h1 h2
    simp only [renderPage, if_neg h1, if_neg h2]
  · rfl

/-- Witness for C5 at the concrete unrecognized page "dashboard". -/
theorem navigate_unconditional_with_home_fallback_witness :
    renderPage "theme1" "dashboard" initialProductsState
      = renderHomePage "theme1" initialProductsState :=
  (navigate_unconditional_with_home_fallback "dashboard" "theme1"
    (initialAppState none) initialProductsState).2.2.1 "dashboard" (by decide) (by decide)

/-- C2: for each of the three pages, the "theme2" (dark-sidebar) rendering
contains the sidebar region and the content-pane region, while "theme1"
and "theme3" renderings contain no sidebar; and the theme2 test is the only
structural branch on theme identity inside page content — for every theme
other than "theme2" the page's tree has the same className-erased
structure, so only style tokens differ. -/
theorem renderPage_theme2_only_structural_branch (page : String)
    (hp : page = "home" ∨ page = "about" ∨ page = "contact") (ps : ProductsState) :
    (hasClass sidebarToken (renderPage "theme2" page ps) = true ∧
     hasClass contentToken (renderPage "theme2" page ps) = true) ∧
    hasClass sidebarToken (renderPage "theme1" page ps) = false ∧
    hasClass sidebarToken (renderPage "theme3" page ps) = false ∧
    (∀ t, t ≠ "theme2" → (renderPage t page ps).shape = (renderPage "theme1" page ps).shape) := by
  obtain ⟨prods, loading, error⟩ := ps
  rcases hp with rfl | rfl | rfl
  · refine ⟨⟨rfl, rfl⟩, ?_, ?_, ?_⟩
    · cases loading <;> cases error <;>
      · show ((hasClass sidebarToken
            (Widget.ofList (prods.map (renderProductCard "theme1"))) || false) || false) = false
        rw [Bool.or_false, Bool.or_false]
        exact hasClass_cards_false _ _ _ (fun p => rfl)
    · cases loading <;> cases error <;>
      · show ((hasClass sidebarToken
            (Widget.ofList (prods.map (renderProductCard "theme3"))) || false) || false) = false
        rw [Bool.or_false, Bool.or_false]
        exact hasClass_cards_false _ _ _ (fun p => rfl)
    · intro t ht
      show (renderHomePage t ⟨prods, loading, error⟩).shape
         = (renderHomePage "theme1" ⟨prods, loading, error⟩).shape
      simp only [renderHomePage, if_neg ht, reduceIte, Widget.nodeL, Widget.ofList, List.foldr,
        List.map, Widget.shape, renderLoading, renderError, shape_cards]
  · refine ⟨⟨rfl, rfl⟩, rfl, rfl, ?_⟩
    intro t ht
    show (renderAboutPage t).shape = (renderAboutPage "theme1").shape
    simp only [renderAboutPage, if_neg ht]
    rfl
  · refine ⟨⟨rfl, rfl⟩, rfl, rfl, ?_⟩
    intro t ht
    show (renderContactPage t).shape = (renderContactPage "theme1").shape
    simp only [renderContactPage, if_neg ht]
    rfl

/-- Witness for C2 on the contact page: theme2 has the sidebar,
and theme3 has the same structure as theme1. -/
theorem renderPage_theme2_only_structural_branch_witness :
    hasClass sidebarToken (renderPage "theme2" "contact" initialProductsState) = true ∧
    (renderPage "theme3" "contact" initialProductsState).shape
      = (renderPage "theme1" "contact" initialProductsState).shape :=
  ⟨(renderPage_theme2_only_structural_branch "contact" (Or.inr (Or.inr rfl))
      initialProductsState).1.1,
   (renderPage_theme2_only_structural_branch "contact" (Or.inr (Or.inr rfl))
      initialProductsState).2.2.2 "theme3" (by decide)⟩

/-- C3: after a successful fetch of N products (N ≤ 8), the home page's
product region contains exactly the N product cards, one per product, in
exactly the fetched order, under each of the three themes. -/
theorem homePage_renders_products_in_fetch_order (data : List Product)
    (h8 : data.length ≤ 8) :
    (settleFetch (.success data) initialProductsState).products = data ∧
    (settleFetch (.success data) initialProductsState).error = none ∧
    collectClass (getThemeStyles "theme1").productCard
        (renderHomePage "theme1" (settleFetch (.success data) initialProductsState))
      = data.map (renderProductCard "theme1") ∧
    collectClass (getThemeStyles "theme2").productCard
        (renderHomePage "theme2" (settleFetch (.success data) initialProductsState))
      = data.map (renderProductCard "theme2") ∧
    collectClass (getThemeStyles "theme3").productCard
        (renderHomePage "theme3" (settleFetch (.success data) initialProductsState))
      = data.map (renderProductCard "theme3") ∧
    (data.map (renderProductCard "theme1")).length = data.length := by
  refine ⟨rfl, rfl, ?_, ?_, ?_, List.length_map data _⟩
  · show ((collectClass theme1Styles.productCard
        (Widget.ofList (data.map (renderProductCard "theme1"))) ++ []) ++ []) = _
    rw [List.append_nil, List.append_nil]
    exact collectClass_cards _ _ _ (fun p => rfl)
  · show (((collectClass theme2Styles.productCard
        (Widget.ofList (data.map (renderProductCard "theme2"))) ++ []) ++ []) ++ []) = _
    rw [List.append_nil, List.append_nil, List.append_nil]
    exact collectClass_cards _ _ _ (fun p => rfl)
  · show ((collectClass theme3Styles.productCard
        (Widget.ofList (data.map (renderProductCard "theme3"))) ++ []) ++ []) = _
    rw [List.append_nil, List.append_nil]
    exact collectClass_cards _ _ _ (fun p => rfl)

/-- Witness for C3 on a concrete two-product fetch. -/
theorem homePage_renders_products_in_fetch_order_witness :
    ([sampleProduct, sampleProduct2] : List Product).length ≤ 8 ∧
    collectClass (getThemeStyles "theme1").productCard
        (renderHomePage "theme1"
          (settleFetch (.success [sampleProduct, sampleProduct2]) initialProductsState))
      = [sampleProduct, sampleProduct2].map (renderProductCard "theme1") :=
  ⟨by decide,
   (homePage_renders_products_in_fetch_order [sampleProduct, sampleProduct2]
      (by decide)).2.2.1⟩

/-- C4: for every failed fetch and each of the three themes, the home
page's product region shows the error message (one error paragraph whose
text carries the failure message) and zero product cards; the settled
state holds `failed` with the initial empty product list. -/
theorem homePage_fetch_failure_error_no_cards (msg : String) :
    (settleFetch (.failure msg) initialProductsState).products = [] ∧
    (settleFetch (.failure msg) initialProductsState).error = some msg ∧
    (settleFetch (.failure msg) initialProductsState).loading = false ∧
    collectClass (getThemeStyles "theme1").productCard
        (renderHomePage "theme1" (settleFetch (.failure msg) initialProductsState)) = [] ∧
    collectClass (getThemeStyles "theme2").productCard
        (renderHomePage "theme2" (settleFetch (.failure msg) initialProductsState)) = [] ∧
    collectClass (getThemeStyles "theme3").productCard
        (renderHomePage "theme3" (settleFetch (.failure msg) initialProductsState)) = [] ∧
    collectClass "text-red-500 text-center"
        (renderHomePage "theme1" (settleFetch (.failure msg) initialProductsState))
      = [Widget.nodeL "p" "text-red-500 text-center" [Widget.text ("Error: " ++ msg)]] ∧
    collectClass "text-red-400"
        (renderHomePage "theme2" (settleFetch (.failure msg) initialProductsState))
      = [Widget.nodeL "p" "text-red-400" [Widget.text ("Error: " ++ msg)]] ∧
    collectClass "text-red-500 text-center"
        (renderHomePage "theme3" (settleFetch (.failure msg) initialProductsState))
      = [Widget.nodeL "p" "text-red-500 text-center" [Widget.text ("Error: " ++ msg)]] :=
  ⟨rfl, rfl, rfl, rfl, rfl, rfl, rfl, rfl, rfl⟩
